import Mathlib

/-!
Verification development for the Glue Python-submission helper
(`dbt/adapters/glue/python_submissions.py`).

The module has three parts, shallowly embedded here:

1. `_extract_packages_from_code`: parses Python source with `ast.parse`
   and scans the tree (breadth-first, as `ast.walk` does) for a call of
   the shape `dbt.config(packages=[...])`.  The Python parser itself is
   external standard-library code, so source text is represented by the
   result of parsing it: `Except PyExn (List PyExpr)` (a raised parse
   error, or the `Module` body's statement nodes; statement nodes such
   as `Expr` or `Assign` are `other` nodes over their child nodes).
   The walk visits `ast.keyword` wrapper nodes explicitly (`keywordW`),
   so a keyword argument's value sits one breadth-first level below its
   call, exactly as `ast.iter_child_nodes` yields it.  The `Module`
   node itself is omitted from the initial queue: `ast.walk` yields it
   first and then proceeds with exactly the body's breadth-first
   traversal, and since `Module` is never a `Call`, scanning the walk
   of the body equals scanning the walk of the module.

2. `_wait_for_statement_completion`: a polling loop bounded by wall
   clock.  Time is discretised: every operation is instantaneous except
   `time.sleep(self.polling_interval)` (the interval is the literal 10),
   so at the k-th loop-condition check the elapsed time is `k * 10`
   seconds.  The embedding also returns the exit index `k` so that
   elapsed time and the number of status fetches are observable.

3. `submit`: the try/except/finally orchestration.  The external
   session client (`run_statement`, `get_statement`) is an oracle of
   fallible functions; the embedding additionally returns the trace of
   `run_statement` calls and of `connection.close()` (status fetches are
   not traced).  Connection/cursor acquisition is external
   (`GlueConnection`) and modelled as already succeeded.
-/

/-- Python constant values that can appear as `ast.Constant` payloads
(`elt.value`): strings, integers, booleans, `None`. -/
inductive PyConst where
  | str (s : String)
  | int (n : Int)
  | bool (b : Bool)
  | pyNone
deriving DecidableEq, Repr

/-- Python AST nodes, restricted to the shapes
`_extract_packages_from_code` distinguishes: `ast.Constant`, `ast.Name`,
`ast.Attribute` (constructor `attr`, since `attribute` is a Lean
keyword), `ast.Call` (whose `keywords` field is a list of
`(arg, value)` pairs, `arg` being `none` for `**kwargs`, exactly the
`kw.arg`/`kw.value` accesses the scanner makes), the `ast.keyword`
wrapper node itself (constructor `keywordW`, as it occurs in the walk),
`ast.List`, and a catch-all `other` carrying its child nodes (used for
every other node kind, e.g. statement nodes such as `Expr` or
`Assign` over their children). -/
inductive PyExpr where
  | const (c : PyConst)
  | name (id : String)
  | attr (value : PyExpr) (attrName : String)
  | call (func : PyExpr) (args : List PyExpr) (keywords : List (Option String × PyExpr))
  | keywordW (arg : Option String) (value : PyExpr)
  | listE (elts : List PyExpr)
  | other (children : List PyExpr)

/-- Child nodes, as `ast.iter_child_nodes` yields them for each shape:
for `Call` the function, then the positional args, then the
`ast.keyword` wrapper nodes (field order `func`, `args`, `keywords`);
for a `keyword` node its value. -/
def PyExpr.children : PyExpr → List PyExpr
  | .const _ => []
  | .name _ => []
  | .attr v _ => [v]
  | .call f args kws => f :: (args ++ kws.map (fun kw => PyExpr.keywordW kw.1 kw.2))
  | .keywordW _ v => [v]
  | .listE elts => elts
  | .other cs => cs

theorem sizes_lt_sizeOf (l : List PyExpr) : (l.map sizeOf).sum < sizeOf l := by
  induction l with
  | nil => simp
  | cons a t ih =>
      simp only [List.map_cons, List.sum_cons, List.cons.sizeOf_spec]
      omega

theorem kw_sizes_lt_sizeOf (kws : List (Option String × PyExpr)) :
    ((kws.map (fun kw => PyExpr.keywordW kw.1 kw.2)).map sizeOf).sum < sizeOf kws := by
  induction kws with
  | nil => simp
  | cons a t ih =>
      simp only [List.map_cons, List.sum_cons, List.cons.sizeOf_spec]
      have h : sizeOf (PyExpr.keywordW a.1 a.2) ≤ sizeOf a := by
        obtain ⟨x, y⟩ := a
        simp only [Prod.mk.sizeOf_spec, PyExpr.keywordW.sizeOf_spec]
        omega
      omega

theorem children_sizes_lt (e : PyExpr) : (e.children.map sizeOf).sum < sizeOf e := by
  cases e with
  | const c =>
      simp only [PyExpr.children, List.map_nil, List.sum_nil, PyExpr.const.sizeOf_spec]
      omega
  | name s =>
      simp only [PyExpr.children, List.map_nil, List.sum_nil, PyExpr.name.sizeOf_spec]
      omega
  | attr v a =>
      simp only [PyExpr.children, List.map_cons, List.map_nil, List.sum_cons,
        List.sum_nil, PyExpr.attr.sizeOf_spec]
      omega
  | keywordW a v =>
      simp only [PyExpr.children, List.map_cons, List.map_nil, List.sum_cons,
        List.sum_nil, PyExpr.keywordW.sizeOf_spec]
      omega
  | call f args kws =>
      have h1 := sizes_lt_sizeOf args
      have h2 := kw_sizes_lt_sizeOf kws
      simp only [PyExpr.children, List.map_cons, List.sum_cons, List.map_append,
        List.sum_append, PyExpr.call.sizeOf_spec]
      omega
  | listE elts =>
      have h1 := sizes_lt_sizeOf elts
      simp only [PyExpr.children, PyExpr.listE.sizeOf_spec]
      omega
  | other cs =>
      have h1 := sizes_lt_sizeOf cs
      simp only [PyExpr.children, PyExpr.other.sizeOf_spec]
      omega

/-- Breadth-first traversal over a work queue, mirroring `ast.walk`
(a deque popped from the front, children appended at the back). -/
def walk (queue : List PyExpr) : List PyExpr :=
  match queue with
  | [] => []
  | e :: rest => e :: walk (rest ++ e.children)
termination_by (queue.map sizeOf).sum
decreasing_by
  simp only [List.map_cons, List.sum_cons, List.map_append, List.sum_append]
  have h := children_sizes_lt e
  omega

/-- Python exceptions as far as this module distinguishes them:
`DbtRuntimeError msg` versus any other exception. -/
inductive PyExn where
  | dbtError (msg : String)
  | otherExn (msg : String)
deriving DecidableEq, Repr

/-- Model of `str(e)`: the message the except-handler interpolates into
the wrapping `DbtRuntimeError`. -/
def PyExn.str : PyExn → String
  | .dbtError m => m
  | .otherExn m => m

/-- The function-shape test of the scanner:
`isinstance(node.func, ast.Attribute) and node.func.attr == "config"
and isinstance(node.func.value, ast.Name) and node.func.value.id == "dbt"`. -/
def isDbtConfigFunc : PyExpr → Bool
  | .attr (.name id) a => a = "config" && id = "dbt"
  | _ => false

/-- Elements of an `ast.List` literal, if the expression is one. -/
def asListElts : PyExpr → Option (List PyExpr)
  | .listE elts => some elts
  | _ => none

/-- The keyword loop of the scanner: the first keyword with
`kw.arg == "packages" and isinstance(kw.value, ast.List)` yields its
elements; a `packages` keyword whose value is not a list literal does
not stop the loop. -/
def findPackagesList : List (Option String × PyExpr) → Option (List PyExpr)
  | [] => none
  | kw :: rest =>
    match kw.1, asListElts kw.2 with
    | some a, some elts =>
        if a = "packages" then some elts else findPackagesList rest
    | _, _ => findPackagesList rest

/-- The list comprehension
`[elt.value for elt in kw.value.elts if isinstance(elt, ast.Constant)]`:
the constant values, in order, non-constant elements dropped. -/
def constValues : List PyExpr → List PyConst
  | [] => []
  | .const c :: rest => c :: constValues rest
  | _ :: rest => constValues rest

/-- The walk loop of the scanner over the breadth-first node sequence:
the first `dbt.config(...)` call carrying a literal-list `packages`
keyword returns its constant values; other nodes (including matching
calls without such a keyword) let the walk continue. -/
def scanNodes : List PyExpr → List PyConst
  | [] => []
  | node :: rest =>
    match node with
    | .call f _ kws =>
        if isDbtConfigFunc f then
          match findPackagesList kws with
          | some elts => constValues elts
          | none => scanNodes rest
        else scanNodes rest
    | _ => scanNodes rest

/-- Embedding of `GluePythonJobHelper._extract_packages_from_code`,
applied to the result of `ast.parse(compiled_code)`: any parse
exception is swallowed (`except Exception: pass`) and yields `[]`;
otherwise the breadth-first walk is scanned. -/
def extract_packages_from_code (parsed : Except PyExn (List PyExpr)) : List PyConst :=
  match parsed with
  | .error _ => []
  | .ok body => scanNodes (walk body)

/-- A node at which the scanner's walk loop stops: a `dbt.config(...)`
call with a literal-list `packages` keyword. -/
def hasPackagesListCall : PyExpr → Bool
  | .call f _ kws => isDbtConfigFunc f && (findPackagesList kws).isSome
  | _ => false

/-- The dictionary `response["Statement"]["Output"]`; the
`.get(key, "")` accesses make an absent key equal to the empty string,
and an absent `Output` dictionary equal to all-empty fields. -/
structure StatementOutput where
  status : String
  errorName : String
  errorValue : String
  traceback : String
deriving DecidableEq, Repr

/-- The dictionary `response["Statement"]`: the polled state plus the
output payload. -/
structure StatementResponse where
  state : String
  output : StatementOutput
deriving DecidableEq, Repr

/-- Python `str.lower()` on the output status.  (Extensionally the
same as Lean's `String.toLower`, but written as a plain map over the
character list so that it is evaluable.) -/
def pyLower (s : String) : String := String.mk (s.data.map Char.toLower)

/-- The polling loop body of `_wait_for_statement_completion`, at loop
iteration `k` (elapsed wall-clock time `k * 10` seconds, the polling
interval being the literal 10).  `fetch k` is the k-th
`glue_client.get_statement` call, which may itself raise.  The value
component mirrors Python exactly: the success branch executes a bare
`return`, i.e. yields `none` (Python `None`), never the output payload.
The second component is the exit iteration index, making elapsed time
and the number of fetches observable. -/
def waitAux (fetch : Nat → Except PyExn StatementResponse) (timeout : Int) (k : Nat) :
    Except PyExn (Option StatementOutput) × Nat :=
  if _h : (k * 10 : Int) < timeout then
    match fetch k with
    | .error e => (.error e, k)
    | .ok resp =>
      if resp.state = "AVAILABLE" then
        if pyLower resp.output.status = "error" then
          (.error (.dbtError ("Python model failed with error: " ++ resp.output.errorName
              ++ "\n" ++ resp.output.errorValue ++ "\n" ++ resp.output.traceback)), k)
        else
          (.ok none, k)
      else if resp.state = "CANCELLED" ∨ resp.state = "ERROR" then
        (.error (.dbtError ("Statement execution failed with state: " ++ resp.state)), k)
      else
        waitAux fetch timeout (k + 1)
  else
    (.error (.dbtError "Timed out waiting for statement to complete"), k)
termination_by (timeout - k * 10).toNat
decreasing_by omega

/-- Embedding of `GluePythonJobHelper._wait_for_statement_completion`:
the loop started at elapsed time zero. -/
def wait_for_statement_completion (fetch : Nat → Except PyExn StatementResponse)
    (timeout : Int) : Except PyExn (Option StatementOutput) × Nat :=
  waitAux fetch timeout 0

/-- The external Glue session client, as `submit` consumes it:
`run_statement(SessionId=..., Code=code)` returning `response["Id"]`,
and `get_statement(SessionId=..., Id=id)`, time-indexed by the poll
iteration of the wait loop for that statement.  Either call may raise. -/
structure GlueClient where
  run_statement : String → Except PyExn String
  get_statement : String → Nat → Except PyExn StatementResponse

/-- Observable events of one `submit` call: each
`glue_client.run_statement` submission (tagged with its code) and the
final `connection.close()`. -/
inductive Event where
  | runStatement (code : String)
  | close
deriving DecidableEq, Repr

/-- The f-string interpolation of a constant (Python `str()`). -/
def pyConstFmt : PyConst → String
  | .str s => s
  | .int n => toString n
  | .bool b => if b then "True" else "False"
  | .pyNone => "None"

/-- The synthesized install statement:
`"import subprocess, sys\n"` followed by the `subprocess.check_call`
line, with `pkg_list` the comma-separated double-quoted packages. -/
def install_code (packages : List PyConst) : String :=
  "import subprocess, sys\n"
    ++ "subprocess.check_call([sys.executable, '-m', 'pip', 'install', "
    ++ String.intercalate ", " (packages.map (fun p => "\"" ++ pyConstFmt p ++ "\""))
    ++ ", '-q'])"

/-- Python's first-occurrence-preserving deduplication
(`dict.fromkeys`); the enclosing `list(set(...))` additionally scrambles
order arbitrarily, so only the membership of the result is meaningful. -/
def pyDedupAux (seen : List PyConst) : List PyConst → List PyConst
  | [] => []
  | x :: rest =>
      if x ∈ seen then pyDedupAux seen rest else x :: pyDedupAux (x :: seen) rest

/-- The merge `list(set(dict.fromkeys(self.packages + code_packages)))`:
the deduplicated union of the declared and the scanned package lists. -/
def mergePackages (declared scanned : List PyConst) : List PyConst :=
  pyDedupAux [] (declared ++ scanned)

/-- One `_run_statement` call followed by
`_wait_for_statement_completion` on the returned id, with its
submission event; any raised exception propagates. -/
def run_and_wait (client : GlueClient) (code : String) (timeout : Int) :
    Except PyExn Unit × List Event :=
  match client.run_statement code with
  | .error e => (.error e, [.runStatement code])
  | .ok sid =>
    match (wait_for_statement_completion (client.get_statement sid) timeout).1 with
    | .error e => (.error e, [.runStatement code])
    | .ok _ => (.ok (), [.runStatement code])

/-- The body of the `try:` block of `submit`: if the merged package
list is truthy (non-empty), submit and await the install statement
first, aborting on its failure; then submit and await the compiled
code. -/
def submitTryBody (client : GlueClient) (packages : List PyConst) (timeout : Int)
    (compiled_code : String) : Except PyExn Unit × List Event :=
  if packages.isEmpty then
    run_and_wait client compiled_code timeout
  else
    match run_and_wait client (install_code packages) timeout with
    | (.error e, tr) => (.error e, tr)
    | (.ok _, tr) =>
        match run_and_wait client compiled_code timeout with
        | (r, tr2) => (r, tr ++ tr2)

/-- Embedding of `GluePythonJobHelper.submit`: merge declared
(`self.packages`, strings from the model config) and scanned packages,
run the try block, wrap any exception as a `DbtRuntimeError` whose
message prefixes the inner message with "Python model execution
failed: ", and in all cases run the `finally:` block's
`connection.close()` before exiting. -/
def GluePythonJobHelper.submit (client : GlueClient) (config_packages : List String)
    (timeout : Int) (compiled_code : String) (parsed : Except PyExn (List PyExpr)) :
    Except PyExn Unit × List Event :=
  let code_packages := extract_packages_from_code parsed
  let packages := mergePackages (config_packages.map PyConst.str) code_packages
  match submitTryBody client packages timeout compiled_code with
  | (.ok _, tr) => (.ok (), tr ++ [.close])
  | (.error e, tr) =>
      (.error (.dbtError ("Python model execution failed: " ++ e.str)), tr ++ [.close])

/-- Fixture: the expression `dbt.config` as an attribute access. -/
def dbtCfgFunc : PyExpr := .attr (.name "dbt") "config"

/-- Fixture: the call `dbt.config(packages=["a", "b"])`. -/
def abCall : PyExpr :=
  .call dbtCfgFunc [] [(some "packages", .listE [.const (.str "a"), .const (.str "b")])]

/-- Fixture: the call `dbt.config(packages=["z"])`. -/
def zCall : PyExpr := .call dbtCfgFunc [] [(some "packages", .listE [.const (.str "z")])]

/-- Fixture: a module of two expression statements (`Expr` wrappers
modelled by `other`), the first config call taking `["z"]`, the second
`["a", "b"]`. -/
def mC5 : List PyExpr := [.other [zCall], .other [abCall]]

/-- Fixture: the call `dbt.config(packages=pkgs)` — a variable
reference, not a literal list. -/
def varCall : PyExpr := .call dbtCfgFunc [] [(some "packages", .name "pkgs")]

/-- Fixture: a config call whose packages list mixes string constants,
a variable reference and an integer constant. -/
def mixedCall : PyExpr := .call dbtCfgFunc []
  [(some "packages", .listE [.const (.str "a"), .name "x", .const (.int 3)])]

/-- Fixture: the call `dbt.config(packages=["q"])`. -/
def qCall : PyExpr := .call dbtCfgFunc [] [(some "packages", .listE [.const (.str "q")])]

/-- Fixture: a response that is never terminal. -/
def busyResp : StatementResponse := ⟨"RUNNING", ⟨"", "", "", ""⟩⟩

/-- Fixture: a non-error output payload. -/
def okOutput : StatementOutput := ⟨"ok", "", "", ""⟩

/-- Fixture: an error output payload with name, value and traceback. -/
def errOutput : StatementOutput :=
  ⟨"Error", "ZeroDivisionError", "division by zero", "Traceback (most recent call)"⟩

/-- Fixture: a client whose statements submit fine but always poll to
terminal state `ERROR`. -/
def errClient : GlueClient :=
  ⟨fun _ => .ok "s1", fun _ _ => .ok ⟨"ERROR", ⟨"", "", "", ""⟩⟩⟩

theorem mem_pyDedupAux (l : List PyConst) :
    ∀ (seen : List PyConst) (x : PyConst), x ∈ pyDedupAux seen l ↔ x ∈ l ∧ x ∉ seen := by
  induction l with
  | nil => intro seen x; simp [pyDedupAux]
  | cons a t ih =>
      intro seen x
      by_cases ha : a ∈ seen
      · rw [pyDedupAux, if_pos ha, ih]
        simp only [List.mem_cons]
        by_cases hxa : x = a
        · subst hxa; simp [ha]
        · simp [hxa]
      · rw [pyDedupAux, if_neg ha]
        simp only [List.mem_cons, ih]
        by_cases hxa : x = a
        · subst hxa; simp [ha]
        · simp [hxa]

theorem nodup_pyDedupAux (l : List PyConst) :
    ∀ seen : List PyConst, (pyDedupAux seen l).Nodup := by
  induction l with
  | nil => intro seen; simp [pyDedupAux]
  | cons a t ih =>
      intro seen
      by_cases ha : a ∈ seen
      · rw [pyDedupAux, if_pos ha]; exact ih seen
      · rw [pyDedupAux, if_neg ha]
        refine List.nodup_cons.mpr ⟨fun hmem => ?_, ih (a :: seen)⟩
        exact ((mem_pyDedupAux t (a :: seen) a).mp hmem).2 (List.mem_cons_self a seen)

theorem mem_mergePackages (d s : List PyConst) (x : PyConst) :
    x ∈ mergePackages d s ↔ x ∈ d ∨ x ∈ s := by
  rw [mergePackages, mem_pyDedupAux]
  simp

theorem scanNodes_cons_of_none (a : PyExpr) (rest : List PyExpr)
    (ha : hasPackagesListCall a = false) : scanNodes (a :: rest) = scanNodes rest := by
  cases a with
  | call f args kws =>
      cases hf : isDbtConfigFunc f <;> cases hfind : findPackagesList kws <;>
        simp_all [scanNodes, hasPackagesListCall]
  | const c => rfl
  | name s => rfl
  | attr v at_ => rfl
  | keywordW a v => rfl
  | listE elts => rfl
  | other cs => rfl

theorem scanNodes_append_of_none :
    ∀ (l₁ : List PyExpr), l₁.all (fun n => !hasPackagesListCall n) = true →
      ∀ l₂, scanNodes (l₁ ++ l₂) = scanNodes l₂ := by
  intro l₁
  induction l₁ with
  | nil => intro _ l₂; rfl
  | cons a t ih =>
      intro h l₂
      simp only [List.all_cons, Bool.and_eq_true, Bool.not_eq_true'] at h
      rw [List.cons_append, scanNodes_cons_of_none a _ h.1]
      exact ih (by simpa using h.2) l₂

theorem scanNodes_of_all_none (l : List PyExpr)
    (h : l.all (fun n => !hasPackagesListCall n) = true) : scanNodes l = [] := by
  have h2 := scanNodes_append_of_none l h []
  simpa using h2

theorem scanNodes_first_match (pre post : List PyExpr) (f : PyExpr)
    (args : List PyExpr) (kws : List (Option String × PyExpr)) (elts : List PyExpr)
    (hpre : pre.all (fun n => !hasPackagesListCall n) = true)
    (hf : isDbtConfigFunc f = true)
    (hkw : findPackagesList kws = some elts) :
    scanNodes (pre ++ PyExpr.call f args kws :: post) = constValues elts := by
  rw [scanNodes_append_of_none pre hpre]
  simp [scanNodes, hf, hkw]

theorem run_and_wait_trace (client : GlueClient) (code : String) (timeout : Int) :
    (run_and_wait client code timeout).2 = [Event.runStatement code] := by
  unfold run_and_wait
  split
  · rfl
  · split <;> rfl

theorem submitTryBody_trace (client : GlueClient) (pkgs : List PyConst)
    (t : Int) (code : String) :
    (submitTryBody client pkgs t code).2 = [Event.runStatement code] ∨
    (submitTryBody client pkgs t code).2 = [Event.runStatement (install_code pkgs)] ∨
    (submitTryBody client pkgs t code).2 =
      [Event.runStatement (install_code pkgs), Event.runStatement code] := by
  unfold submitTryBody
  by_cases hp : pkgs.isEmpty
  · rw [if_pos hp]
    exact Or.inl (run_and_wait_trace client code t)
  · rw [if_neg hp]
    rcases h1 : run_and_wait client (install_code pkgs) t with ⟨r1, tr1⟩
    have ht1 : tr1 = [Event.runStatement (install_code pkgs)] := by
      have h := run_and_wait_trace client (install_code pkgs) t
      rw [h1] at h; exact h
    cases r1 with
    | error e => simp [ht1]
    | ok u =>
        rcases h2 : run_and_wait client code t with ⟨r2, tr2⟩
        have ht2 : tr2 = [Event.runStatement code] := by
          have h := run_and_wait_trace client code t
          rw [h2] at h; exact h
        simp [ht1, ht2]

theorem close_not_mem_submitTryBody (client : GlueClient) (pkgs : List PyConst)
    (t : Int) (code : String) : Event.close ∉ (submitTryBody client pkgs t code).2 := by
  rcases submitTryBody_trace client pkgs t code with h | h | h <;> simp [h]

theorem waitAux_timeout_of_nonterminal (fetch : Nat → Except PyExn StatementResponse)
    (t : Int)
    (hnt : ∀ k, ∃ resp, fetch k = .ok resp ∧ resp.state ≠ "AVAILABLE" ∧
      resp.state ≠ "CANCELLED" ∧ resp.state ≠ "ERROR") :
    ∀ (N k : Nat), (t - k * 10).toNat ≤ N → (k * 10 : Int) ≤ t + 10 →
      ∃ n, waitAux fetch t k =
          (.error (.dbtError "Timed out waiting for statement to complete"), n) ∧
        (n * 10 : Int) ≤ t + 10 := by
  intro N
  induction N with
  | zero =>
      intro k hN hk
      have hstop : ¬ ((k * 10 : Int) < t) := by omega
      rw [waitAux, dif_neg hstop]
      exact ⟨k, rfl, hk⟩
  | succ N ih =>
      intro k hN hk
      by_cases hlt : (k * 10 : Int) < t
      · obtain ⟨resp, hf, h1, h2, h3⟩ := hnt k
        rw [waitAux, dif_pos hlt, hf]
        simp only [h1, if_false, h2, h3, or_self, ite_false]
        have hN' : (t - (k + 1) * 10).toNat ≤ N := by omega
        have hk' : ((k + 1) * 10 : Int) ≤ t + 10 := by omega
        exact ih (k + 1) hN' hk'
      · rw [waitAux, dif_neg hlt]
        exact ⟨k, rfl, hk⟩

/-- C1: when the merged package list is non-empty, the install
statement is submitted, and awaiting it ends in failure (terminal
`ERROR`/`CANCELLED`, an error-status output payload, a fetch exception,
or timeout — any error raised by `_wait_for_statement_completion`), the
main compiled code is never submitted: the event trace is exactly the
install submission followed by the final close, contains no submission
of the compiled code, and `submit` raises the wrapping
`DbtRuntimeError` instead. -/
theorem claim_C1_install_failure_blocks_main (client : GlueClient) (cfg : List String)
    (t : Int) (code : String) (parsed : Except PyExn (List PyExpr))
    (pkgs : List PyConst) (instId : String) (e : PyExn)
    (hp : pkgs = mergePackages (cfg.map PyConst.str) (extract_packages_from_code parsed))
    (hne : pkgs ≠ [])
    (hrun : client.run_statement (install_code pkgs) = .ok instId)
    (hwait : (wait_for_statement_completion (client.get_statement instId) t).1 = .error e)
    (hcode : code ≠ install_code pkgs) :
    (GluePythonJobHelper.submit client cfg t code parsed).2 =
      [Event.runStatement (install_code pkgs), Event.close] ∧
    Event.runStatement code ∉ (GluePythonJobHelper.submit client cfg t code parsed).2 ∧
    (GluePythonJobHelper.submit client cfg t code parsed).1 =
      .error (.dbtError ("Python model execution failed: " ++ e.str)) := by
  have hie : pkgs.isEmpty = false := by
    cases pkgs with
    | nil => exact absurd rfl hne
    | cons a l => rfl
  have hbody : submitTryBody client pkgs t code =
      (.error e, [Event.runStatement (install_code pkgs)]) := by
    unfold submitTryBody run_and_wait
    rw [hie]
    simp only [Bool.false_eq_true, if_false, hrun, hwait]
  subst hp
  unfold GluePythonJobHelper.submit
  simp only [hbody]
  simp [hcode]

/-- Witness for C1 at a concrete client whose install statement polls
to terminal state `ERROR`. -/
theorem claim_C1_witness :
    (GluePythonJobHelper.submit errClient ["pandas"] 60 "print(1)" (.ok [])).2 =
      [Event.runStatement (install_code [.str "pandas"]), Event.close] ∧
    Event.runStatement "print(1)" ∉
      (GluePythonJobHelper.submit errClient ["pandas"] 60 "print(1)" (.ok [])).2 ∧
    (GluePythonJobHelper.submit errClient ["pandas"] 60 "print(1)" (.ok [])).1 =
      .error (.dbtError ("Python model execution failed: "
        ++ "Statement execution failed with state: ERROR")) := by
  have h := claim_C1_install_failure_blocks_main errClient ["pandas"] 60 "print(1)"
    (.ok []) [.str "pandas"] "s1" (.dbtError "Statement execution failed with state: ERROR")
    (by simp [mergePackages, pyDedupAux, extract_packages_from_code, walk, scanNodes])
    (by simp)
    rfl
    (by simp [wait_for_statement_completion, waitAux, errClient])
    (by decide)
  exact h

/-- C2: on every path through `submit` — normal return, install
failure, main-statement failure, timeout, or a client exception — the
connection's `close` is invoked exactly once before `submit` exits
(the `finally:` block). -/
theorem claim_C2_close_exactly_once (client : GlueClient) (cfg : List String)
    (t : Int) (code : String) (parsed : Except PyExn (List PyExpr)) :
    (GluePythonJobHelper.submit client cfg t code parsed).2.count Event.close = 1 := by
  unfold GluePythonJobHelper.submit
  rcases h : submitTryBody client
      (mergePackages (cfg.map PyConst.str) (extract_packages_from_code parsed))
      t code with ⟨r, tr⟩
  have hnc : Event.close ∉ tr := by
    have h2 := close_not_mem_submitTryBody client
      (mergePackages (cfg.map PyConst.str) (extract_packages_from_code parsed)) t code
    rw [h] at h2
    exact h2
  cases r <;> simp [h, List.count_append, List.count_eq_zero.mpr hnc]

/-- C3: if every status fetch succeeds but never returns a terminal
state, the poll loop does not run forever: it fails with the timeout
error, at an elapsed time (10 seconds per completed sleep) of at most
one poll interval past the configured timeout. -/
theorem claim_C3_timeout_bounded (fetch : Nat → Except PyExn StatementResponse)
    (t : Int) (ht : 0 ≤ t)
    (hnt : ∀ k, ∃ resp, fetch k = .ok resp ∧ resp.state ≠ "AVAILABLE" ∧
      resp.state ≠ "CANCELLED" ∧ resp.state ≠ "ERROR") :
    ∃ n, wait_for_statement_completion fetch t =
        (.error (.dbtError "Timed out waiting for statement to complete"), n) ∧
      (n * 10 : Int) ≤ t + 10 := by
  have h := waitAux_timeout_of_nonterminal fetch t hnt (t - 0).toNat 0 (by omega) (by omega)
  simpa [wait_for_statement_completion] using h

/-- Witness for C3: a perpetually `RUNNING` statement under a
25-second timeout times out after at most 35 seconds of polling. -/
theorem claim_C3_witness :
    (0 : Int) ≤ 25 ∧
    ∃ n, wait_for_statement_completion (fun _ => .ok busyResp) 25 =
        (.error (.dbtError "Timed out waiting for statement to complete"), n) ∧
      (n * 10 : Int) ≤ 25 + 10 := by
  refine ⟨by decide, ?_⟩
  exact claim_C3_timeout_bounded (fun _ => .ok busyResp) 25 (by decide)
    (fun k => ⟨busyResp, rfl, by simp [busyResp], by simp [busyResp], by simp [busyResp]⟩)

/-- C4 as stated is false in its success half: on a poll observing
`AVAILABLE` with a non-error output payload the loop executes a bare
`return` — Python `None` — so the output payload is NOT returned to the
caller.  Concretely, with every fetch returning `AVAILABLE` and output
status "ok", the wait returns `none`, not `some okOutput`. -/
theorem claim_C4_counterexample :
    (wait_for_statement_completion (fun _ => .ok ⟨"AVAILABLE", okOutput⟩) 60).1 =
      .ok none ∧
    (wait_for_statement_completion (fun _ => .ok ⟨"AVAILABLE", okOutput⟩) 60).1 ≠
      .ok (some okOutput) := by
  have hol : ¬ (pyLower "ok" = "error") := by decide
  constructor
  · simp [wait_for_statement_completion, waitAux, okOutput, hol]
  · simp [wait_for_statement_completion, waitAux, okOutput, hol]

/-- C4, amended: when the poll at iteration `k` (still within the
timeout) observes terminal state `AVAILABLE`, then if the output
payload's status field equals "error" case-insensitively the loop
raises a `DbtRuntimeError` carrying the payload's errorName, errorValue
and traceback; otherwise it treats the statement as a success and
returns normally with no payload (Python `None`). -/
theorem claim_C4_amended_available_outcome
    (fetch : Nat → Except PyExn StatementResponse) (t : Int) (k : Nat)
    (resp : StatementResponse) (hk : (k * 10 : Int) < t)
    (hf : fetch k = .ok resp) (hs : resp.state = "AVAILABLE") :
    (pyLower resp.output.status = "error" →
      waitAux fetch t k =
        (.error (.dbtError ("Python model failed with error: " ++ resp.output.errorName
          ++ "\n" ++ resp.output.errorValue ++ "\n" ++ resp.output.traceback)), k)) ∧
    (pyLower resp.output.status ≠ "error" → waitAux fetch t k = (.ok none, k)) := by
  constructor
  · intro herr
    rw [waitAux, dif_pos hk, hf]
    simp [hs, herr]
  · intro hok
    rw [waitAux, dif_pos hk, hf]
    simp [hs, hok]

/-- Witness for the amended C4: an `AVAILABLE` poll whose output status
"Error" (case-insensitively "error") raises the error carrying the
payload's name, value and traceback. -/
theorem claim_C4_witness :
    waitAux (fun _ => .ok ⟨"AVAILABLE", errOutput⟩) 60 0 =
      (.error (.dbtError ("Python model failed with error: ZeroDivisionError\n"
        ++ "division by zero\nTraceback (most recent call)")), 0) := by
  have h := (claim_C4_amended_available_outcome (fun _ => .ok ⟨"AVAILABLE", errOutput⟩)
    60 0 ⟨"AVAILABLE", errOutput⟩ (by decide) rfl rfl).1 (by decide)
  simpa [errOutput] using h

/-- C5 as stated is false: a source text can contain the call
`dbt.config(packages=["a","b"])` and still not yield `["a","b"]`,
because an earlier `dbt.config` call with a literal `packages` list
wins.  Concretely, for the module `dbt.config(packages=["z"])` followed
by `dbt.config(packages=["a","b"])`, the matching `["a","b"]` call is
in the walked tree but the extractor returns `["z"]`. -/
theorem claim_C5_counterexample :
    abCall ∈ walk mC5 ∧
    extract_packages_from_code (.ok mC5) = [.str "z"] ∧
    extract_packages_from_code (.ok mC5) ≠ [.str "a", .str "b"] := by
  refine ⟨?_, ?_, ?_⟩
  · simp [walk, mC5, zCall, abCall, dbtCfgFunc, PyExpr.children]
  · simp [extract_packages_from_code, walk, mC5, zCall, abCall, dbtCfgFunc,
      PyExpr.children, scanNodes, isDbtConfigFunc, findPackagesList, asListElts,
      constValues]
  · simp [extract_packages_from_code, walk, mC5, zCall, abCall, dbtCfgFunc,
      PyExpr.children, scanNodes, isDbtConfigFunc, findPackagesList, asListElts,
      constValues]

/-- C5, amended: parse failure yields the empty sequence and never
raises; a text with no `dbt.config` call carrying a literal `packages`
list yields the empty sequence; and a text whose FIRST matching call
(in walk order) is `dbt.config(packages=["a","b"])` yields exactly
`["a","b"]`, in source order. -/
theorem claim_C5_amended_first_match_extracts :
    (∀ e, extract_packages_from_code (.error e) = []) ∧
    (∀ m : List PyExpr, (walk m).all (fun n => !hasPackagesListCall n) = true →
      extract_packages_from_code (.ok m) = []) ∧
    (∀ (m pre post : List PyExpr) (f : PyExpr) (args : List PyExpr)
        (kws : List (Option String × PyExpr)),
      walk m = pre ++ PyExpr.call f args kws :: post →
      pre.all (fun n => !hasPackagesListCall n) = true →
      isDbtConfigFunc f = true →
      findPackagesList kws = some [.const (.str "a"), .const (.str "b")] →
      extract_packages_from_code (.ok m) = [.str "a", .str "b"]) := by
  refine ⟨fun e => rfl, ?_, ?_⟩
  · intro m hm
    unfold extract_packages_from_code
    exact scanNodes_of_all_none (walk m) hm
  · intro m pre post f args kws hw hpre hf hkw
    show scanNodes (walk m) = _
    rw [hw]
    exact scanNodes_first_match pre post f args kws _ hpre hf hkw

/-- Witness for the amended C5: a module whose only statement is the
expression statement `dbt.config(packages=["a","b"])` extracts exactly
`["a","b"]`. -/
theorem claim_C5_witness :
    extract_packages_from_code (.ok [.other [abCall]]) = [.str "a", .str "b"] := by
  apply claim_C5_amended_first_match_extracts.2.2 [.other [abCall]] [.other [abCall]]
    ((walk [.other [abCall]]).drop 2)
    dbtCfgFunc [] [(some "packages", .listE [.const (.str "a"), .const (.str "b")])]
  · simp [walk, abCall, dbtCfgFunc, PyExpr.children]
  · rfl
  · rfl
  · rfl

/-- C6: the effective package set is the deduplicated union of declared
and scanned packages — membership is exactly union membership, merging
is order-insensitive (set-equal under swap), idempotent on a list with
itself, the result has no duplicates, and the concrete instance
declared ["a","b"] with scanned ["b","c"] is set-equal to the set
with elements a, b, c. -/
theorem claim_C6_merge_is_dedup_union :
    (∀ d s x, x ∈ mergePackages d s ↔ x ∈ d ∨ x ∈ s) ∧
    (∀ d s x, x ∈ mergePackages d s ↔ x ∈ mergePackages s d) ∧
    (∀ l x, x ∈ mergePackages l l ↔ x ∈ l) ∧
    (∀ d s, (mergePackages d s).Nodup) ∧
    (∀ x, x ∈ mergePackages [PyConst.str "a", PyConst.str "b"]
        [PyConst.str "b", PyConst.str "c"] ↔
      x ∈ [PyConst.str "a", PyConst.str "b", PyConst.str "c"]) := by
  refine ⟨fun d s x => mem_mergePackages d s x, ?_, ?_, ?_, ?_⟩
  · intro d s x
    rw [mem_mergePackages, mem_mergePackages]
    exact or_comm
  · intro l x
    rw [mem_mergePackages]
    exact or_self_iff
  · intro d s
    exact nodup_pyDedupAux _ []
  · intro x
    rw [mem_mergePackages]
    simp only [List.mem_cons, List.mem_singleton, List.not_mem_nil, or_false]
    tauto

/-- C7: `submit` either returns normally or fails with the single
unified `DbtRuntimeError`, whose message is the human-readable
"Python model execution failed: " wrapping; and it returns normally
exactly when the try-block body (install phase, if any, then the main
statement) completed successfully. -/
theorem claim_C7_unified_error_type (client : GlueClient) (cfg : List String)
    (t : Int) (code : String) (parsed : Except PyExn (List PyExpr)) :
    ((GluePythonJobHelper.submit client cfg t code parsed).1 = .ok () ∨
      ∃ s, (GluePythonJobHelper.submit client cfg t code parsed).1 =
        .error (.dbtError ("Python model execution failed: " ++ s))) ∧
    ((GluePythonJobHelper.submit client cfg t code parsed).1 = .ok () ↔
      (submitTryBody client
        (mergePackages (cfg.map PyConst.str) (extract_packages_from_code parsed))
        t code).1 = .ok ()) := by
  unfold GluePythonJobHelper.submit
  rcases h : submitTryBody client
      (mergePackages (cfg.map PyConst.str) (extract_packages_from_code parsed))
      t code with ⟨r, tr⟩
  cases r with
  | ok u => simp [h]
  | error e => simp [h]

/-- C8: if no node of the walked tree is a `dbt.config(...)` call with
a literal-list `packages` keyword — in particular when the only
`dbt.config` call passes `packages` as something other than a literal
list, such as a variable reference — the extractor returns the empty
sequence. -/
theorem claim_C8_non_list_packages_empty (m : List PyExpr)
    (h : (walk m).all (fun n => !hasPackagesListCall n) = true) :
    extract_packages_from_code (.ok m) = [] := by
  unfold extract_packages_from_code
  exact scanNodes_of_all_none (walk m) h

/-- Witness for C8: `dbt.config(packages=pkgs)` with a variable
reference extracts nothing. -/
theorem claim_C8_witness : extract_packages_from_code (.ok [varCall]) = [] := by
  apply claim_C8_non_list_packages_empty
  simp [walk, varCall, dbtCfgFunc, PyExpr.children, hasPackagesListCall,
    isDbtConfigFunc, findPackagesList, asListElts]

/-- C9: when the first matching `dbt.config` call (in breadth-first
walk order, all earlier nodes being non-matching) carries a literal
`packages` list, the extractor returns exactly the constant values of
that list, in order — non-constant elements silently dropped,
non-string constants included — and the result does not depend on
anything after that call (later matching calls are never consulted). -/
theorem claim_C9_first_match_constants_only (m pre post : List PyExpr) (f : PyExpr)
    (args : List PyExpr) (kws : List (Option String × PyExpr)) (elts : List PyExpr)
    (hw : walk m = pre ++ PyExpr.call f args kws :: post)
    (hpre : pre.all (fun n => !hasPackagesListCall n) = true)
    (hf : isDbtConfigFunc f = true)
    (hkw : findPackagesList kws = some elts) :
    extract_packages_from_code (.ok m) = constValues elts := by
  show scanNodes (walk m) = constValues elts
  rw [hw]
  exact scanNodes_first_match pre post f args kws elts hpre hf hkw

/-- Witness for C9: the expression statement
`dbt.config(packages=["a", x, 3])` followed by the expression statement
`dbt.config(packages=["q"])` extracts the constants "a" and 3 of the
first call only. -/
theorem claim_C9_witness :
    extract_packages_from_code (.ok [.other [mixedCall], .other [qCall]]) =
      [.str "a", .int 3] := by
  have h := claim_C9_first_match_constants_only [.other [mixedCall], .other [qCall]]
    [.other [mixedCall], .other [qCall]]
    ((walk [.other [mixedCall], .other [qCall]]).drop 3) dbtCfgFunc []
    [(some "packages", .listE [.const (.str "a"), .name "x", .const (.int 3)])]
    [.const (.str "a"), .name "x", .const (.int 3)]
    (by simp [walk, mixedCall, qCall, dbtCfgFunc, PyExpr.children])
    rfl rfl rfl
  simpa [constValues] using h

/-- C10: with a zero (or negative) configured timeout the loop
condition fails at its very first check: the timeout error is raised at
elapsed time zero, the exit index 0 meaning that no status fetch was
performed — uniformly in the fetch oracle, hence even if the statement
would already have polled as terminal. -/
theorem claim_C10_zero_timeout_immediate (t : Int) (ht : t ≤ 0)
    (fetch : Nat → Except PyExn StatementResponse) :
    wait_for_statement_completion fetch t =
      (.error (.dbtError "Timed out waiting for statement to complete"), 0) := by
  rw [wait_for_statement_completion, waitAux, dif_neg (by omega)]

/-- Witness for C10: timeout 0 with a statement already `AVAILABLE`
still raises the timeout error at once. -/
theorem claim_C10_witness :
    (0 : Int) ≤ 0 ∧
    wait_for_statement_completion (fun _ => .ok ⟨"AVAILABLE", okOutput⟩) 0 =
      (.error (.dbtError "Timed out waiting for statement to complete"), 0) :=
  ⟨by decide,
    claim_C10_zero_timeout_immediate 0 (by decide) (fun _ => .ok ⟨"AVAILABLE", okOutput⟩)⟩
